import Mathlib

/-!
Verification development for the gs_videoReport batch engine.

Shallow embedding of the Python sources under src/gs_video_report/:
  - batch/state_manager.py      (TaskRecord, BatchState, StateManager)
  - batch/enhanced_processor.py (EnhancedBatchProcessor)
  - batch/dedicated_worker_pool.py (DedicatedWorker, DedicatedWorkerPool)
  - batch/retry_manager.py      (ErrorClassifier, RetryBudget, RetryManager)
  - security/multi_key_manager.py (KeyUsageStats, MultiKeyManager)
  - services/simple_gemini_service.py (SimpleGeminiService._get_mime_type)

Machine-level effects are made explicit:
  - the filesystem of video files is a map from path to the SHA-256 of the
    bytes currently on disk (`fs : String -> Option String`, none = missing);
  - the state-file directory is a map from batch id to parsed state file;
  - SHA-256 itself is an arbitrary parameter `checksum`: every theorem holds
    for every checksum function, in particular for the real SHA-256;
  - `datetime.now()` timestamps are string parameters.
-/

namespace GsVideoReport

/-! ## state_manager.py : status enumerations -/

/-- `TaskStatus` enum of state_manager.py. -/
inductive TaskStatus where
  | pending
  | processing
  | success
  | failed
  | skipped
  | cancelled
deriving DecidableEq, Repr

/-- The `.value` string of a `TaskStatus` member. -/
def TaskStatus.value : TaskStatus → String
  | .pending => "pending"
  | .processing => "processing"
  | .success => "success"
  | .failed => "failed"
  | .skipped => "skipped"
  | .cancelled => "cancelled"

/-- `TaskStatus(s)` construction from the value string: fails on any other
string (Python raises `ValueError`). -/
def TaskStatus.ofValue : String → Option TaskStatus
  | "pending" => some .pending
  | "processing" => some .processing
  | "success" => some .success
  | "failed" => some .failed
  | "skipped" => some .skipped
  | "cancelled" => some .cancelled
  | _ => none

/-- `BatchStatus` enum of state_manager.py. -/
inductive BatchStatus where
  | created
  | running
  | paused
  | completed
  | failed
  | cancelled
deriving DecidableEq, Repr

/-- The `.value` string of a `BatchStatus` member. -/
def BatchStatus.value : BatchStatus → String
  | .created => "created"
  | .running => "running"
  | .paused => "paused"
  | .completed => "completed"
  | .failed => "failed"
  | .cancelled => "cancelled"

/-- `BatchStatus(s)` construction from the value string. -/
def BatchStatus.ofValue : String → Option BatchStatus
  | "created" => some .created
  | "running" => some .running
  | "paused" => some .paused
  | "completed" => some .completed
  | "failed" => some .failed
  | "cancelled" => some .cancelled
  | _ => none

lemma taskStatus_ofValue_value (s : TaskStatus) : TaskStatus.ofValue s.value = some s := by
  cases s <;> rfl

lemma batchStatus_ofValue_value (s : BatchStatus) : BatchStatus.ofValue s.value = some s := by
  cases s <;> rfl

/-! ## state_manager.py : TaskRecord -/

/-- In-memory `TaskRecord` of state_manager.py, with every field that
`to_dict` serializes.  `processing_time_seconds` is a rational (Python float
arithmetic on it is out of the claims considered here). -/
structure TaskRecord where
  task_id : String
  video_path : String
  template_name : String
  output_path : Option String
  status : TaskStatus
  created_at : String
  started_at : Option String
  completed_at : Option String
  attempts : Nat
  max_retries : Nat
  error_message : Option String
  file_size_bytes : Option Nat
  processing_time_seconds : Option ℚ
  worker_id : Option String
  file_hash : Option String
deriving DecidableEq, Repr

namespace TaskRecord

/-- `TaskRecord.__init__` with the given creation timestamp. -/
def init (task_id video_path template_name : String) (output_path : Option String)
    (status : TaskStatus) (now : String) : TaskRecord :=
  { task_id := task_id
    video_path := video_path
    template_name := template_name
    output_path := output_path
    status := status
    created_at := now
    started_at := none
    completed_at := none
    attempts := 0
    max_retries := 3
    error_message := none
    file_size_bytes := none
    processing_time_seconds := none
    worker_id := none
    file_hash := none }

/-- `TaskRecord.start_processing`. -/
def start_processing (t : TaskRecord) (worker_id : String) (now : String) : TaskRecord :=
  { t with status := .processing, started_at := some now,
           worker_id := some worker_id, attempts := t.attempts + 1 }

/-- `TaskRecord.complete_success`. -/
def complete_success (t : TaskRecord) (output_path : String) (processing_time : ℚ)
    (now : String) : TaskRecord :=
  { t with status := .success, completed_at := some now,
           output_path := some output_path,
           processing_time_seconds := some processing_time }

/-- `TaskRecord.complete_failed`. -/
def complete_failed (t : TaskRecord) (error_message : String) (now : String) : TaskRecord :=
  { t with status := .failed, completed_at := some now,
           error_message := some error_message }

/-- `TaskRecord.complete_skipped`. -/
def complete_skipped (t : TaskRecord) (reason : String) (now : String) : TaskRecord :=
  { t with status := .skipped, completed_at := some now,
           error_message := some reason }

/-- `TaskRecord.can_retry`. -/
def can_retry (t : TaskRecord) : Bool :=
  t.status = TaskStatus.failed && t.attempts < t.max_retries

/-- `TaskRecord.calculate_file_hash` over an explicit filesystem
`fs : path -> Option (sha256 of bytes on disk)`.  Returns the value the
Python method returns together with the updated record: when the file is
missing the method returns the empty string without touching `file_hash`;
otherwise it stores the fresh hash in `self.file_hash` and returns it. -/
def calculate_file_hash (fs : String → Option String) (t : TaskRecord) :
    String × TaskRecord :=
  match fs t.video_path with
  | none => ("", t)
  | some h => (h, { t with file_hash := some h })

/-- `TaskRecord.validate_file_integrity` over an explicit filesystem.
Note the source compares the freshly computed hash against `self.file_hash`
after `calculate_file_hash` has already overwritten `self.file_hash`. -/
def validate_file_integrity (fs : String → Option String) (t : TaskRecord) :
    Bool × TaskRecord :=
  if t.file_hash = none ∨ t.file_hash = some "" then (true, t)
  else
    let r := calculate_file_hash fs t
    (some r.1 = r.2.file_hash, r.2)

end TaskRecord

/-- The dictionary produced by `TaskRecord.to_dict`: same payload, with the
status serialized as its value string. -/
structure TaskData where
  task_id : String
  video_path : String
  template_name : String
  output_path : Option String
  status : String
  created_at : String
  started_at : Option String
  completed_at : Option String
  attempts : Nat
  max_retries : Nat
  error_message : Option String
  file_size_bytes : Option Nat
  processing_time_seconds : Option ℚ
  worker_id : Option String
  file_hash : Option String
deriving DecidableEq, Repr

/-- `TaskRecord.to_dict`. -/
def TaskRecord.to_dict (t : TaskRecord) : TaskData :=
  { task_id := t.task_id
    video_path := t.video_path
    template_name := t.template_name
    output_path := t.output_path
    status := t.status.value
    created_at := t.created_at
    started_at := t.started_at
    completed_at := t.completed_at
    attempts := t.attempts
    max_retries := t.max_retries
    error_message := t.error_message
    file_size_bytes := t.file_size_bytes
    processing_time_seconds := t.processing_time_seconds
    worker_id := t.worker_id
    file_hash := t.file_hash }

/-- `TaskRecord.from_dict`; fails when the status string is not a
`TaskStatus` value (Python raises there, which `load_state` turns into
`None`). -/
def TaskRecord.from_dict (d : TaskData) : Option TaskRecord :=
  match TaskStatus.ofValue d.status with
  | none => none
  | some st => some
      { task_id := d.task_id
        video_path := d.video_path
        template_name := d.template_name
        output_path := d.output_path
        status := st
        created_at := d.created_at
        started_at := d.started_at
        completed_at := d.completed_at
        attempts := d.attempts
        max_retries := d.max_retries
        error_message := d.error_message
        file_size_bytes := d.file_size_bytes
        processing_time_seconds := d.processing_time_seconds
        worker_id := d.worker_id
        file_hash := d.file_hash }

lemma taskRecord_from_dict_to_dict (t : TaskRecord) :
    TaskRecord.from_dict t.to_dict = some t := by
  unfold TaskRecord.from_dict TaskRecord.to_dict
  rw [taskStatus_ofValue_value]

/-! ## state_manager.py : BatchState -/

/-- The statistics dictionary of `BatchState.get_statistics`. -/
structure BatchStats where
  total : Nat
  pending : Nat
  processing : Nat
  success : Nat
  failed : Nat
  skipped : Nat
  cancelled : Nat
  completed : Nat
  progress_percentage : ℚ
deriving DecidableEq, Repr

/-- In-memory `BatchState` of state_manager.py.  The `tasks` dict is a list
of `(task_id, record)` pairs in insertion order (Python dicts preserve
insertion order, and serialization iterates in that order). -/
structure BatchState where
  batch_id : String
  input_dir : String
  template_name : String
  output_dir : Option String
  status : BatchStatus
  created_at : String
  started_at : Option String
  completed_at : Option String
  max_workers : Nat
  max_retries : Nat
  skip_existing : Bool
  tasks : List (String × TaskRecord)
deriving DecidableEq, Repr

namespace BatchState

/-- Count of tasks with the given status. -/
def countStatus (b : BatchState) (s : TaskStatus) : Nat :=
  (b.tasks.filter (fun p => p.2.status = s)).length

/-- `BatchState.get_statistics`. -/
def get_statistics (b : BatchState) : BatchStats :=
  let succ := b.countStatus .success
  let fail := b.countStatus .failed
  let skip := b.countStatus .skipped
  let compl := succ + fail + skip
  { total := b.tasks.length
    pending := b.countStatus .pending
    processing := b.countStatus .processing
    success := succ
    failed := fail
    skipped := skip
    cancelled := b.countStatus .cancelled
    completed := compl
    progress_percentage :=
      if b.tasks.length > 0 then (compl : ℚ) / (b.tasks.length : ℚ) * 100 else 0 }

/-- `BatchState.get_pending_tasks`. -/
def get_pending_tasks (b : BatchState) : List TaskRecord :=
  (b.tasks.map Prod.snd).filter (fun t => t.status = TaskStatus.pending)

/-- `BatchState.get_failed_retryable_tasks`. -/
def get_failed_retryable_tasks (b : BatchState) : List TaskRecord :=
  (b.tasks.map Prod.snd).filter (fun t => t.can_retry)

end BatchState

/-- The dictionary produced by `BatchState.to_dict` (the persisted payload,
before the `_metadata` envelope is attached). -/
structure BatchData where
  batch_id : String
  input_dir : String
  template_name : String
  output_dir : Option String
  status : String
  created_at : String
  started_at : Option String
  completed_at : Option String
  max_workers : Nat
  max_retries : Nat
  skip_existing : Bool
  tasks : List (String × TaskData)
  statistics : BatchStats
deriving DecidableEq, Repr

/-- `BatchState.to_dict`. -/
def BatchState.to_dict (b : BatchState) : BatchData :=
  { batch_id := b.batch_id
    input_dir := b.input_dir
    template_name := b.template_name
    output_dir := b.output_dir
    status := b.status.value
    created_at := b.created_at
    started_at := b.started_at
    completed_at := b.completed_at
    max_workers := b.max_workers
    max_retries := b.max_retries
    skip_existing := b.skip_existing
    tasks := b.tasks.map (fun p => (p.1, p.2.to_dict))
    statistics := b.get_statistics }

/-- Parse every task of the serialized tasks dict, in order. -/
def parseTasks : List (String × TaskData) → Option (List (String × TaskRecord))
  | [] => some []
  | (id, d) :: rest =>
    match TaskRecord.from_dict d, parseTasks rest with
    | some t, some ts => some ((id, t) :: ts)
    | _, _ => none

/-- `BatchState.from_dict`; fails (Python raises, `load_state` returns
`None`) when a status string is invalid. -/
def BatchState.from_dict (d : BatchData) : Option BatchState :=
  match BatchStatus.ofValue d.status, parseTasks d.tasks with
  | some st, some ts => some
      { batch_id := d.batch_id
        input_dir := d.input_dir
        template_name := d.template_name
        output_dir := d.output_dir
        status := st
        created_at := d.created_at
        started_at := d.started_at
        completed_at := d.completed_at
        max_workers := d.max_workers
        max_retries := d.max_retries
        skip_existing := d.skip_existing
        tasks := ts }
  | _, _ => none

lemma parseTasks_map_to_dict (ts : List (String × TaskRecord)) :
    parseTasks (ts.map (fun p => (p.1, p.2.to_dict))) = some ts := by
  induction ts with
  | nil => rfl
  | cons p rest ih =>
      simp only [List.map_cons, parseTasks, taskRecord_from_dict_to_dict, ih]

lemma batchState_from_dict_to_dict (b : BatchState) :
    BatchState.from_dict b.to_dict = some b := by
  unfold BatchState.from_dict BatchState.to_dict
  rw [batchStatus_ofValue_value]
  simp only [parseTasks_map_to_dict]

/-! ## state_manager.py : StateManager save / load -/

/-- The `_metadata` envelope written by `save_state`. -/
structure StateMetadata where
  version : String
  saved_at : String
  checksum : String
deriving DecidableEq, Repr

/-- A parsed `<batch_id>_state.json` file: the payload dictionary plus the
optional `_metadata` envelope (`load_state` validates the checksum only when
the envelope is present; files written by `save_state` always carry it). -/
structure StateFile where
  payload : BatchData
  metadata : Option StateMetadata
deriving DecidableEq, Repr

/-- The state directory: batch id to parsed state file. -/
def StateDir := String → Option StateFile

/-- `StateManager.save_state` (the atomic-write succeeding case): serialize
the batch, attach the envelope whose `checksum` is computed over the payload
alone (the envelope is added to the dict only after `_calculate_checksum`
ran), and replace the state file for that batch id.  `checksum` stands for
`_calculate_checksum` (SHA-256 of the sorted-key canonical JSON): every
theorem below is proved for an arbitrary such function. -/
def save_state (checksum : BatchData → String) (now : String)
    (dir : StateDir) (b : BatchState) : StateDir :=
  fun id =>
    if id = b.batch_id then
      some { payload := b.to_dict
             metadata := some { version := "1.0", saved_at := now,
                                checksum := checksum b.to_dict } }
    else dir id

/-- The per-task rehash pass at the end of `load_state`: every task in
`PENDING` or `PROCESSING` status runs `validate_file_integrity`, whose
`calculate_file_hash` call overwrites `file_hash` with the hash currently on
disk; the boolean result only drives console warnings. -/
def revalidateTasks (fs : String → Option String) :
    List (String × TaskRecord) → List (String × TaskRecord) :=
  List.map (fun p =>
    if p.2.status = TaskStatus.pending ∨ p.2.status = TaskStatus.processing then
      (p.1, (TaskRecord.validate_file_integrity fs p.2).2)
    else p)

/-- `StateManager.load_state`: missing file yields `None`; with an envelope
present, a checksum mismatch yields `None`; otherwise the payload is
deserialized and the pending/processing tasks re-hashed against the disk. -/
def load_state (checksum : BatchData → String) (fs : String → Option String)
    (dir : StateDir) (batch_id : String) : Option BatchState :=
  match dir batch_id with
  | none => none
  | some file =>
    let ok : Bool :=
      match file.metadata with
      | none => true
      | some md => md.checksum = checksum file.payload
    if ok then
      match BatchState.from_dict file.payload with
      | none => none
      | some b => some { b with tasks := revalidateTasks fs b.tasks }
    else none

/-- A task the revalidation pass leaves untouched: terminal status, or no
recorded hash, or the bytes on disk still hash to the recorded value. -/
def taskFileUnchanged (fs : String → Option String) (t : TaskRecord) : Prop :=
  (t.status = TaskStatus.pending ∨ t.status = TaskStatus.processing) →
    t.file_hash = none ∨ t.file_hash = some "" ∨
      (∃ h, t.file_hash = some h ∧ (fs t.video_path = none ∨ fs t.video_path = some h))

lemma validate_file_integrity_unchanged (fs : String → Option String) (t : TaskRecord)
    (h : t.file_hash = none ∨ t.file_hash = some "" ∨
      (∃ hh, t.file_hash = some hh ∧ (fs t.video_path = none ∨ fs t.video_path = some hh))) :
    (TaskRecord.validate_file_integrity fs t).2 = t := by
  unfold TaskRecord.validate_file_integrity TaskRecord.calculate_file_hash
  rcases h with h | h | ⟨hh, hfh, hfs⟩
  · simp [h]
  · simp [h]
  · by_cases hz : t.file_hash = none ∨ t.file_hash = some ""
    · simp [hz]
    · rcases hfs with hfs | hfs
      · simp [hz, hfs]
      · simp only [hz, if_false]
        simp [hfs, hfh]
        cases t
        simp_all

lemma revalidateTasks_unchanged (fs : String → Option String)
    (ts : List (String × TaskRecord))
    (h : ∀ p ∈ ts, taskFileUnchanged fs p.2) :
    revalidateTasks fs ts = ts := by
  induction ts with
  | nil => rfl
  | cons p rest ih =>
      have hp := h p (List.mem_cons_self p rest)
      have hrest := ih (fun q hq => h q (List.mem_cons_of_mem p hq))
      unfold revalidateTasks at hrest ⊢
      simp only [List.map_cons, hrest]
      by_cases hs : p.2.status = TaskStatus.pending ∨ p.2.status = TaskStatus.processing
      · have := validate_file_integrity_unchanged fs p.2 (hp hs)
        simp [hs, this]
      · simp [hs]

/-- Round trip: saving then loading under an unchanged filesystem returns
exactly the original batch. -/
lemma load_after_save (checksum : BatchData → String) (fs : String → Option String)
    (now : String) (dir : StateDir) (b : BatchState)
    (h : ∀ p ∈ b.tasks, taskFileUnchanged fs p.2) :
    load_state checksum fs (save_state checksum now dir b) b.batch_id = some b := by
  unfold load_state save_state
  simp only [if_true, if_pos rfl, decide_eq_true_eq]
  rw [batchState_from_dict_to_dict]
  simp [revalidateTasks_unchanged fs b.tasks h]

/-! ## enhanced_processor.py : resume and dispatch -/

/-- `EnhancedBatchProcessor.resume_batch`: the loaded batch becomes
`current_batch` (the method returns `False` exactly when the load yields
`None`; it performs no task-status mutation of its own). -/
def resume_batch (checksum : BatchData → String) (fs : String → Option String)
    (dir : StateDir) (batch_id : String) : Option BatchState :=
  load_state checksum fs dir batch_id

/-- The task selection of `EnhancedBatchProcessor.process_batch`
(lines 276-287): the tasks pushed to the dedicated worker queue are exactly
those whose status is `PENDING` or `PROCESSING`. -/
def dispatch_selection (b : BatchState) : List TaskRecord :=
  (b.tasks.map Prod.snd).filter
    (fun t => t.status = TaskStatus.pending ∨ t.status = TaskStatus.processing)

/-! ### Claim C1 -/

/-- A persisted batch holding one task that crashed mid-lease: status
`PROCESSING`, attempt counter 2. -/
def batchC1 : BatchState :=
  { batch_id := "batch_20240101_000000_abcd1234"
    input_dir := "videos"
    template_name := "chinese_transcript"
    output_dir := some "out"
    status := .paused
    created_at := "2024-01-01T00:00:00+00:00"
    started_at := some "2024-01-01T00:00:01+00:00"
    completed_at := none
    max_workers := 2
    max_retries := 3
    skip_existing := false
    tasks := [("t1",
      { task_id := "t1"
        video_path := "videos/a.mp4"
        template_name := "chinese_transcript"
        output_path := some "out/a.md"
        status := .processing
        created_at := "2024-01-01T00:00:00+00:00"
        started_at := some "2024-01-01T00:00:02+00:00"
        completed_at := none
        attempts := 2
        max_retries := 3
        error_message := none
        file_size_bytes := some 1000
        processing_time_seconds := none
        worker_id := some "dedicated-worker-1"
        file_hash := none })] }

/-- A trivial stand-in for SHA-256 used to evaluate concrete runs; the
general theorems hold for every checksum function. -/
def cksDemo : BatchData → String := fun d => d.batch_id

/-- The empty state directory. -/
def dirEmpty : StateDir := fun _ => none

/-- The empty filesystem. -/
def fsEmpty : String → Option String := fun _ => none

/-- C1 counterexample: after `resume_batch` loads the persisted batch, the
task that was `PROCESSING` at save time still has status `PROCESSING` and
attempt counter 2 — it is not reset to `PENDING`; no reset is performed
anywhere on the resume path. -/
theorem claim_C1_counterexample :
    (resume_batch cksDemo fsEmpty (save_state cksDemo "2024-01-02T00:00:00+00:00" dirEmpty batchC1)
        batchC1.batch_id).map (fun b => b.tasks.map (fun p => (p.2.status, p.2.attempts)))
      = some [(TaskStatus.processing, 2)] := by
  decide

/-- C1 (amended): `resume_batch` loads the persisted batch verbatim — every
task keeps its persisted status and its persisted attempt counter (in
particular a crashed `PROCESSING` lease stays `PROCESSING`; it is not reset
to `PENDING`) — and the subsequent `process_batch` dispatch enqueues exactly
the tasks in status `PENDING` or `PROCESSING`, so a task already `SUCCESS`
or `SKIPPED` is never enqueued. -/
theorem claim_C1 (checksum : BatchData → String) (fs : String → Option String)
    (now : String) (dir : StateDir) (b : BatchState)
    (h : ∀ p ∈ b.tasks, taskFileUnchanged fs p.2) :
    resume_batch checksum fs (save_state checksum now dir b) b.batch_id = some b ∧
    (∀ t ∈ dispatch_selection b,
      t.status = TaskStatus.pending ∨ t.status = TaskStatus.processing) ∧
    (∀ t ∈ b.tasks.map Prod.snd,
      (t.status = TaskStatus.success ∨ t.status = TaskStatus.skipped) →
        t ∉ dispatch_selection b) := by
  refine ⟨load_after_save checksum fs now dir b h, ?_, ?_⟩
  · intro t ht
    have := List.of_mem_filter ht
    simpa using this
  · intro t _ hterm hmem
    have := List.of_mem_filter hmem
    rcases hterm with hs | hs <;> simp [hs] at this

/-- C1 witness: the amended statement evaluated on the concrete crashed
batch `batchC1`. -/
theorem claim_C1_witness :
    resume_batch cksDemo fsEmpty
        (save_state cksDemo "2024-01-02T00:00:00+00:00" dirEmpty batchC1)
        batchC1.batch_id = some batchC1 ∧
    (∀ t ∈ dispatch_selection batchC1,
      t.status = TaskStatus.pending ∨ t.status = TaskStatus.processing) ∧
    (∀ t ∈ batchC1.tasks.map Prod.snd,
      (t.status = TaskStatus.success ∨ t.status = TaskStatus.skipped) →
        t ∉ dispatch_selection batchC1) :=
  claim_C1 cksDemo fsEmpty "2024-01-02T00:00:00+00:00" dirEmpty batchC1
    (by intro p hp; simp [batchC1] at hp; intro hs; simp [hp])

/-! ### Claim C2 -/

/-- A `PENDING` task whose recorded video hash is "aaa". -/
def taskC2 : TaskRecord :=
  { task_id := "t1"
    video_path := "videos/a.mp4"
    template_name := "chinese_transcript"
    output_path := none
    status := .pending
    created_at := "2024-01-01T00:00:00+00:00"
    started_at := none
    completed_at := none
    attempts := 0
    max_retries := 3
    error_message := none
    file_size_bytes := none
    processing_time_seconds := none
    worker_id := none
    file_hash := some "aaa" }

/-- A batch with one `PENDING` task whose recorded video hash is "aaa". -/
def batchC2 : BatchState :=
  { batchC1 with
    batch_id := "batch_c2"
    tasks := [("t1", taskC2)] }

/-- A filesystem on which `videos/a.mp4` now hashes to "bbb" (the file was
edited after the batch was saved). -/
def fsChanged : String → Option String := fun p =>
  if p = "videos/a.mp4" then some "bbb" else none

/-- C2 counterexample: the claim quantifies over every `BatchState`, but the
round trip is not the identity — `load_state` runs `validate_file_integrity`
on every `PENDING`/`PROCESSING` task, and that method overwrites the stored
`file_hash` with the hash currently on disk.  Saving `batchC2` (recorded
hash "aaa") and loading it while the file on disk hashes to "bbb" returns a
batch, but one whose task has `file_hash` "bbb", so the result differs from
the original. -/
theorem claim_C2_counterexample :
    (load_state cksDemo fsChanged
        (save_state cksDemo "2024-01-02T00:00:00+00:00" dirEmpty batchC2)
        batchC2.batch_id).isSome = true ∧
    load_state cksDemo fsChanged
        (save_state cksDemo "2024-01-02T00:00:00+00:00" dirEmpty batchC2)
        batchC2.batch_id ≠ some batchC2 := by
  constructor
  · decide
  · decide

/-- C2 (amended): provided every `PENDING`/`PROCESSING` task's video file
still hashes to its recorded value (or records no hash) — `load_state`
rewrites `file_hash` from the disk otherwise — `save_state` followed by
`load_state` returns a batch equal to the original in every serialized
field, and the checksum stored in the `_metadata` envelope is exactly the
checksum of the persisted payload, so recomputing it on reload matches. -/
theorem claim_C2 (checksum : BatchData → String) (fs : String → Option String)
    (now : String) (dir : StateDir) (b : BatchState)
    (h : ∀ p ∈ b.tasks, taskFileUnchanged fs p.2) :
    load_state checksum fs (save_state checksum now dir b) b.batch_id = some b ∧
    (∃ f md, save_state checksum now dir b b.batch_id = some f ∧
      f.metadata = some md ∧ md.checksum = checksum f.payload) := by
  refine ⟨load_after_save checksum fs now dir b h, ?_⟩
  refine ⟨{ payload := b.to_dict,
            metadata := some { version := "1.0", saved_at := now,
                               checksum := checksum b.to_dict } },
          { version := "1.0", saved_at := now, checksum := checksum b.to_dict },
          ?_, rfl, rfl⟩
  unfold save_state
  simp

/-- C2 witness: the amended round trip evaluated on `batchC1` (whose sole
task records no file hash). -/
theorem claim_C2_witness :
    load_state cksDemo fsEmpty
        (save_state cksDemo "2024-01-03T00:00:00+00:00" dirEmpty batchC1)
        batchC1.batch_id = some batchC1 ∧
    (∃ f md, save_state cksDemo "2024-01-03T00:00:00+00:00" dirEmpty batchC1
        batchC1.batch_id = some f ∧
      f.metadata = some md ∧ md.checksum = cksDemo f.payload) :=
  claim_C2 cksDemo fsEmpty "2024-01-03T00:00:00+00:00" dirEmpty batchC1
    (by intro p hp; simp [batchC1] at hp; intro hs; simp [hp])

/-! ### Claim C3 -/

/-- Tampering with a persisted state file: the payload is replaced, the
`_metadata` envelope (hence the stored checksum) is left as written. -/
def tamper (dir : StateDir) (id : String) (p : BatchData) : StateDir :=
  fun i => if i = id then (dir i).map (fun f => { f with payload := p }) else dir i

/-- C3: altering the payload of a saved state file so that the checksum of
the altered payload no longer equals the stored one makes `load_state`
return `None` rather than a batch. -/
theorem claim_C3 (checksum : BatchData → String) (fs : String → Option String)
    (now : String) (dir : StateDir) (b : BatchState) (p : BatchData)
    (h : checksum p ≠ checksum b.to_dict) :
    load_state checksum fs (tamper (save_state checksum now dir b) b.batch_id p)
      b.batch_id = none := by
  unfold load_state tamper save_state
  simp only [if_pos rfl, Option.map_some]
  have hne : ¬ checksum b.to_dict = checksum p := fun e => h e.symm
  simp [hne]

/-- C3 witness: a concrete tampering (the demo checksum of the altered
payload differs from the stored one) is rejected by `load_state`. -/
theorem claim_C3_witness :
    load_state cksDemo fsEmpty
      (tamper (save_state cksDemo "2024-01-02T00:00:00+00:00" dirEmpty batchC1)
        batchC1.batch_id { batchC1.to_dict with batch_id := "evil" })
      batchC1.batch_id = none :=
  claim_C3 cksDemo fsEmpty "2024-01-02T00:00:00+00:00" dirEmpty batchC1
    { batchC1.to_dict with batch_id := "evil" } (by decide)

/-! ## dedicated_worker_pool.py : DedicatedWorker and DedicatedWorkerPool -/

/-- `rfind` of a dot in a file name, as used by `pathlib.PurePath.suffix`. -/
def lastDotIdx (cs : List Char) : Option Nat :=
  ((List.range cs.length).filter (fun i => cs.getD i ' ' = '.')).getLast?

/-- `pathlib.PurePath.stem` on a single name component: drop the last
suffix, a suffix existing only when the last dot is neither the first nor
the final character. -/
def pathStem (name : String) : String :=
  let cs := name.toList
  match lastDotIdx cs with
  | none => name
  | some i => if 0 < i ∧ i < cs.length - 1 then String.mk (cs.take i) else name

/-- Characters of the current final path segment, scanning left to right
and restarting at every separator (accumulator reversed). -/
def fileNameChars : List Char → List Char → List Char
  | [], acc => acc.reverse
  | c :: rest, acc =>
      if c = '/' then fileNameChars rest [] else fileNameChars rest (c :: acc)

/-- Final path component (`pathlib.PurePath.name`). -/
def pathFileName (p : String) : String :=
  String.mk (fileNameChars p.toList [])

/-- The slice of configuration `_check_output_file_exists` reads:
`get_default_output_directory(config)` and `get_default_template(config)`
resolve to these strings. -/
structure WorkerConfig where
  output_directory : String
  default_template : String
deriving DecidableEq, Repr

/-- The canonical output path computed inside
`DedicatedWorker._check_output_file_exists`:
`<output_dir>/<template>/<base>.md`, where the template falls back to the
default when the task's template name is empty, and the base name strips the
final extension twice (handling double extensions such as `.mp4.mp4`). -/
def canonical_output_path (cfg : WorkerConfig) (t : TaskRecord) : String :=
  let template := if t.template_name = "" then cfg.default_template else t.template_name
  let base := pathStem (pathStem (pathFileName t.video_path))
  cfg.output_directory ++ "/" ++ template ++ "/" ++ base ++ ".md"

/-- `DedicatedWorker._check_output_file_exists` over a filesystem that maps
a path to the size of the file there (`none` = missing).  Returns
`(exists_and_nonempty, output_path)`. -/
def check_output_file_exists (cfg : WorkerConfig) (fsSize : String → Option Nat)
    (t : TaskRecord) : Bool × Option String :=
  let output_path := canonical_output_path cfg t
  match fsSize output_path with
  | some n => (n > 0, some output_path)
  | none => (false, some output_path)

/-- `DedicatedWorker._process_task`.  `fsHash` is the video filesystem (path
to SHA-256 of bytes), `fsSize` the output filesystem (path to byte size),
`adapter` stands for `SimpleGeminiService.process_video_end_to_end_enhanced`
(video path to written lesson path, or an error message), `elapsed` the
measured wall-clock time.  The second component records whether the upstream
adapter was invoked. -/
def process_task (worker_id : String) (cfg : WorkerConfig)
    (fsHash : String → Option String) (fsSize : String → Option Nat)
    (adapter : String → Except String String) (elapsed : ℚ) (now : String)
    (t : TaskRecord) : TaskRecord × Bool :=
  let t1 := t.start_processing worker_id now
  match check_output_file_exists cfg fsSize t1 with
  | (true, some out) => (t1.complete_success out 0 now, false)
  | _ =>
    let v := t1.validate_file_integrity fsHash
    if v.1 then
      match adapter t1.video_path with
      | .ok outPath => (v.2.complete_success outPath elapsed now, true)
      | .error e => (v.2.complete_failed e now, true)
    else
      (v.2.complete_failed ("file modified or corrupted: " ++ t1.video_path) now, false)

/-! ### Claim C4 -/

/-- C4: the claim is right about the guard and about the adapter not being
invoked, but the transition taken is wrong in the code: when the canonical
output path exists as a non-empty file, `_process_task` calls
`task.complete_success(output_path, 0)`, so the task ends in status
`SUCCESS`, not `SKIPPED` — even though the survey of results in the same
file (`run` and `wait_for_completion`) keeps dedicated skipped counters and
the log line says the task is being skipped. -/
theorem claim_C4 (worker_id : String) (cfg : WorkerConfig)
    (fsHash : String → Option String) (fsSize : String → Option Nat)
    (adapter : String → Except String String) (elapsed : ℚ) (now : String)
    (t : TaskRecord) (n : Nat)
    (hex : fsSize (canonical_output_path cfg t) = some n) (hn : 0 < n) :
    (process_task worker_id cfg fsHash fsSize adapter elapsed now t).1.status
        = TaskStatus.success ∧
    (process_task worker_id cfg fsHash fsSize adapter elapsed now t).2 = false := by
  have hpath : canonical_output_path cfg (t.start_processing worker_id now)
      = canonical_output_path cfg t := rfl
  have hchk : check_output_file_exists cfg fsSize (t.start_processing worker_id now)
      = (true, some (canonical_output_path cfg t)) := by
    unfold check_output_file_exists
    simp only [hpath, hex]
    simp [hn]
  unfold process_task
  simp only [hchk]
  exact ⟨rfl, by trivial⟩

/-- The worker configuration of the C4 witness scenario. -/
def cfgC4 : WorkerConfig :=
  { output_directory := "test_output", default_template := "chinese_transcript" }

/-- The output filesystem of the C4 witness scenario: the canonical output
of `videos/a.mp4` already holds 1024 bytes. -/
def fsSizeC4 : String → Option Nat := fun p =>
  if p = "test_output/chinese_transcript/a.md" then some 1024 else none

/-- An adapter that must never be reached in the C4 witness scenario. -/
def adapterC4 : String → Except String String := fun _ => Except.error "unreachable"

theorem claim_C4_witness :
    (process_task "dedicated-worker-1" cfgC4 fsEmpty fsSizeC4 adapterC4 0
        "2024-01-02T00:00:00+00:00" taskC2).1.status = TaskStatus.success ∧
    (process_task "dedicated-worker-1" cfgC4 fsEmpty fsSizeC4 adapterC4 0
        "2024-01-02T00:00:00+00:00" taskC2).2 = false :=
  claim_C4 "dedicated-worker-1" cfgC4 fsEmpty fsSizeC4 adapterC4 0
    "2024-01-02T00:00:00+00:00" taskC2 1024 (by decide) (by decide)

/-! ### Claim C5 -/

/-- The slice of configuration `DedicatedWorkerPool` reads:
`multi_api_keys.enabled`, `multi_api_keys.api_keys`, and the single
credential that `api_key_manager.get_api_key` resolves in the fallback
path. -/
structure PoolConfig where
  multi_enabled : Bool
  multi_api_keys : List String
  single_key : String
deriving DecidableEq, Repr

/-- `DedicatedWorkerPool._get_api_keys`: the configured key list when
multi-key mode is enabled and non-empty, else the single resolved key. -/
def get_api_keys (c : PoolConfig) : List String :=
  if c.multi_enabled ∧ c.multi_api_keys ≠ [] then c.multi_api_keys
  else [c.single_key]

/-- `DedicatedWorkerPool._init_workers`: one `DedicatedWorker` per API key,
ids `dedicated-worker-1`, `dedicated-worker-2`, ... in key order
(`num_workers = len(api_keys)`; no other bound is applied). -/
def init_workers (c : PoolConfig) : List (String × String) :=
  (get_api_keys c).enum.map
    (fun p => ("dedicated-worker-" ++ toString (p.1 + 1), p.2))

/-- A multi-key configuration with 10 credentials. -/
def tenKeyConfig : PoolConfig :=
  { multi_enabled := true
    multi_api_keys := ["k1", "k2", "k3", "k4", "k5", "k6", "k7", "k8", "k9", "k10"]
    single_key := "s" }

/-- A single-key configuration. -/
def singleKeyConfig : PoolConfig :=
  { multi_enabled := false, multi_api_keys := [], single_key := "s" }

/-- A multi-key configuration with 3 credentials. -/
def threeKeyConfig : PoolConfig :=
  { multi_enabled := true, multi_api_keys := ["a", "b", "c"], single_key := "s" }

/-- C5 counterexample: with 10 credentials in multi-key mode the pool
creates 10 workers, not `min(10, 8) = 8`; and in single-key mode it creates
1 worker, not 2.  (The `min(keys, 8)` / default-2 formula lives in
`config.get_dynamic_parallel_workers`, which `DedicatedWorkerPool` does not
consult for its size.) -/
theorem claim_C5_counterexample :
    (init_workers tenKeyConfig).length = 10 ∧ (10 : Nat) ≠ min 10 8 ∧
    (init_workers singleKeyConfig).length = 1 ∧ (1 : Nat) ≠ 2 := by
  refine ⟨?_, by decide, ?_, by decide⟩ <;> decide

/-- C5 (amended): the number of workers `DedicatedWorkerPool` creates equals
the number of configured credentials in multi-key mode — with no upper cap —
and exactly 1 in the single-key fallback. -/
theorem claim_C5 (c : PoolConfig) :
    (c.multi_enabled = true ∧ c.multi_api_keys ≠ [] →
      (init_workers c).length = c.multi_api_keys.length) ∧
    (¬ (c.multi_enabled = true ∧ c.multi_api_keys ≠ []) →
      (init_workers c).length = 1) := by
  unfold init_workers get_api_keys
  constructor
  · intro h
    simp [h]
  · intro h
    simp [h]

/-- C5 witness: the amended sizing evaluated at a 3-credential multi-key
configuration. -/
theorem claim_C5_witness :
    (init_workers threeKeyConfig).length = threeKeyConfig.multi_api_keys.length ∧
    (init_workers singleKeyConfig).length = 1 :=
  ⟨(claim_C5 threeKeyConfig).1 ⟨rfl, by decide⟩,
   (claim_C5 singleKeyConfig).2 (by decide)⟩

/-! ## enhanced_processor.py : batch creation -/

/-- Suffix test (the effect of `Path.glob` with a `*<ext>` pattern on a flat
listing). -/
def strEndsWith (f e : String) : Bool :=
  e.toList.isSuffixOf f.toList

/-- Python `str.upper` (ASCII uppercase, which is all the extensions use). -/
def strUpper (s : String) : String :=
  String.mk (s.toList.map Char.toUpper)

/-- Keep-first deduplication (the effect of `set(...)` before sorting). -/
def dedupKeepFirst (seen : List String) : List String → List String
  | [] => []
  | x :: xs =>
      if x ∈ seen then dedupKeepFirst seen xs
      else x :: dedupKeepFirst (x :: seen) xs

/-- Insertion into a sorted list of strings. -/
def insertSorted (s : String) : List String → List String
  | [] => [s]
  | x :: xs => if s ≤ x then s :: x :: xs else x :: insertSorted s xs

/-- Insertion sort over strings (`sorted(...)` on the glob results). -/
def sortStrings (l : List String) : List String :=
  l.foldr insertSorted []

/-- The fallback of `supported_formats` in `_scan_video_files`. -/
def defaultSupportedFormats : List String :=
  [".mp4", ".mov", ".avi", ".mkv", ".webm", ".m4v"]

/-- `EnhancedBatchProcessor._scan_video_files` over a flat directory
listing: for each configured extension (a leading dot added when
missing), collect the names matching `*<ext>` and `*<EXT>`, then
deduplicate and sort. -/
def scan_video_files (formats : List String) (listing : List String) : List String :=
  let collected := formats.foldl (fun acc ext =>
    let e := match ext.toList with
      | '.' :: _ => ext
      | _ => "." ++ ext
    acc ++ listing.filter (fun f => strEndsWith f e)
        ++ listing.filter (fun f => strEndsWith f (strUpper e))) []
  sortStrings (dedupKeepFirst [] collected)

/-- Parent directory of a path (`pathlib.PurePath.parent`): everything
before the last separator, `"."` when there is none. -/
def parentDir (p : String) : String :=
  let cs := p.toList
  match ((List.range cs.length).filter (fun i => cs.getD i ' ' = '/')).getLast? with
  | none => "."
  | some i => String.mk (cs.take i)

/-- The slice of configuration `create_new_batch` reads. -/
structure CreateConfig where
  supported_formats : List String
  parallel_workers : Nat
  max_retries : Nat
deriving DecidableEq, Repr

/-- `EnhancedBatchProcessor.create_new_batch` over a flat listing of the
input directory.  `fsHash` is the video filesystem; `fsExists` tells whether
a path exists (the `skip_existing` probe); `uuid6` stands for the per-task
`uuid4().hex[:6]` draw; `now` is the ISO timestamp, `nowMinute` the
`%Y%m%d_%H%M` stamp used in the expected output name.  When the scan finds
no supported video file the method raises `ValueError` (modelled as
`Except.error`); otherwise it builds the batch of `PENDING` tasks, each
hashed, with `SKIPPED` applied immediately when `skip_existing` is set and
the expected output exists. -/
def create_new_batch (cfg : CreateConfig) (fsHash : String → Option String)
    (fsExists : String → Bool) (input_dir : String) (listing : List String)
    (template_name : String) (output_dir : Option String) (batch_id : String)
    (skip_existing : Bool) (now nowMinute : String) (uuid6 : String → String) :
    Except String BatchState :=
  let video_files := (scan_video_files cfg.supported_formats listing).map
    (fun name => input_dir ++ "/" ++ name)
  if video_files = [] then
    Except.error ("no supported video files found in directory " ++ input_dir)
  else
    let tasks := video_files.map (fun vf =>
      let stem := pathStem (pathFileName vf)
      let task_id := batch_id ++ "_" ++ stem ++ "_" ++ uuid6 vf
      let outDir := match output_dir with
        | some d => d
        | none => parentDir vf
      let expected := outDir ++ "/" ++ stem ++ "_" ++ nowMinute ++ "_lesson_plan.md"
      let t0 := TaskRecord.init task_id vf template_name (some expected) .pending now
      let t1 := (t0.calculate_file_hash fsHash).2
      let t2 := { t1 with max_retries := cfg.max_retries }
      if skip_existing ∧ fsExists expected then
        t2.complete_skipped "output file already exists" now
      else t2)
    Except.ok
      { batch_id := batch_id
        input_dir := input_dir
        template_name := template_name
        output_dir := output_dir
        status := .created
        created_at := now
        started_at := none
        completed_at := none
        max_workers := cfg.parallel_workers
        max_retries := cfg.max_retries
        skip_existing := skip_existing
        tasks := tasks.map (fun t => (t.task_id, t)) }

/-! ### Claim C6 -/

/-- The default creation configuration of the C6 scenario. -/
def cfgC6 : CreateConfig :=
  { supported_formats := defaultSupportedFormats, parallel_workers := 2, max_retries := 3 }

/-- C6 counterexample: a directory containing only `notes.txt` (no
supported video extension) makes `create_new_batch` raise `ValueError`
rather than produce an empty, immediately `Completed` batch. -/
theorem claim_C6_counterexample :
    create_new_batch cfgC6 fsEmpty (fun _ => false) "videos" ["notes.txt"]
        "chinese_transcript" none "batch_x" false
        "2024-01-01T00:00:00+00:00" "20240101_0000" (fun _ => "abcdef")
      = Except.error "no supported video files found in directory videos" := by
  rfl

/-- C6 (amended): whenever the scan of the input directory yields no file
with a supported video extension, `create_new_batch` raises `ValueError`
(no batch is created, saved, or completed). -/
theorem claim_C6 (cfg : CreateConfig) (fsHash : String → Option String)
    (fsExists : String → Bool) (input_dir : String) (listing : List String)
    (template_name : String) (output_dir : Option String) (batch_id : String)
    (skip_existing : Bool) (now nowMinute : String) (uuid6 : String → String)
    (h : scan_video_files cfg.supported_formats listing = []) :
    create_new_batch cfg fsHash fsExists input_dir listing template_name
        output_dir batch_id skip_existing now nowMinute uuid6
      = Except.error ("no supported video files found in directory " ++ input_dir) := by
  unfold create_new_batch
  simp [h]

/-- C6 witness: the empty listing triggers the error path. -/
theorem claim_C6_witness :
    create_new_batch cfgC6 fsEmpty (fun _ => false) "videos" []
        "chinese_transcript" none "batch_x" false
        "2024-01-01T00:00:00+00:00" "20240101_0000" (fun _ => "abcdef")
      = Except.error "no supported video files found in directory videos" :=
  claim_C6 cfgC6 fsEmpty (fun _ => false) "videos" [] "chinese_transcript" none
    "batch_x" false "2024-01-01T00:00:00+00:00" "20240101_0000" (fun _ => "abcdef")
    (by decide)

/-! ## retry_manager.py : error classification -/

/-- `ErrorCategory` enum of retry_manager.py. -/
inductive ErrorCategory where
  | network_error
  | api_rate_limit
  | api_quota_exceeded
  | file_error
  | auth_error
  | server_error
  | client_error
  | gemini_specific
  | unknown_error
deriving DecidableEq, Repr

/-- Python `str.lower` (ASCII, which is all the patterns need). -/
def strLower (s : String) : String :=
  String.mk (s.toList.map Char.toLower)

/-- Suffix of `s` after the first occurrence of `pat`, if any. -/
def dropAfterFirst (pat : List Char) : List Char → Option (List Char)
  | [] => if pat.isPrefixOf ([] : List Char) then some [] else none
  | c :: t =>
      if pat.isPrefixOf (c :: t) then some ((c :: t).drop pat.length)
      else dropAfterFirst pat t

/-- Sequential-substring matching: `re.search` semantics for the patterns of
`ERROR_PATTERNS`, all of which are literal fragments joined by `.*`. -/
def matchFrags : List (List Char) → List Char → Bool
  | [], _ => true
  | p :: ps, s =>
      match dropAfterFirst p s with
      | none => false
      | some rest => matchFrags ps rest

/-- `re.search(pattern, text)` for one `ERROR_PATTERNS` entry, the pattern
given by its literal fragments. -/
def regexSearch (frags : List String) (text : String) : Bool :=
  matchFrags (frags.map String.toList) text.toList

/-- `ErrorClassifier.ERROR_PATTERNS`, in dict insertion order; each pattern
is written as its `.*`-separated literal fragments. -/
def errorPatterns : List (ErrorCategory × List (List String)) :=
  [ (.network_error,
      [["connection", "error"], ["timeout"], ["network", "unreachable"],
       ["dns", "resolution", "failed"], ["socket", "error"],
       ["connection", "reset"], ["connection", "refused"],
       ["read", "timeout"], ["write", "timeout"], ["ssl", "error"],
       ["certificate", "error"]]),
    (.api_rate_limit,
      [["rate", "limit", "exceeded"], ["too", "many", "requests"],
       ["quota", "exceeded", "temporarily"], ["throttled"], ["429"],
       ["rate", "limiting"]]),
    (.api_quota_exceeded,
      [["quota", "exceeded"], ["billing", "account", "suspended"],
       ["api", "limit", "reached"], ["usage", "limit", "exceeded"],
       ["insufficient", "quota"], ["credit", "exhausted"]]),
    (.file_error,
      [["file", "not", "found"], ["no", "such", "file"],
       ["permission", "denied"], ["access", "denied"], ["file", "corrupted"],
       ["invalid", "file", "format"], ["unsupported", "format"],
       ["file", "too", "large"], ["disk", "full"], ["io", "error"]]),
    (.auth_error,
      [["authentication", "failed"], ["invalid", "api", "key"],
       ["unauthorized"], ["access", "denied"], ["forbidden"], ["401"],
       ["403"], ["invalid", "credentials"], ["token", "expired"],
       ["signature", "invalid"]]),
    (.server_error,
      [["internal", "server", "error"], ["server", "unavailable"],
       ["service", "unavailable"], ["bad", "gateway"],
       ["gateway", "timeout"], ["500"], ["502"], ["503"], ["504"],
       ["upstream", "error"]]),
    (.client_error,
      [["bad", "request"], ["invalid", "request"], ["malformed", "request"],
       ["400"], ["422"], ["unprocessable", "entity"],
       ["validation", "error"]]),
    (.gemini_specific,
      [["video", "not", "supported"], ["video", "too", "large"],
       ["invalid", "video", "format"], ["video", "processing", "failed"],
       ["model", "not", "available"], ["gemini", "error"],
       ["content", "policy", "violation"],
       ["safety", "filter", "triggered"]]) ]

/-- `ErrorClassifier.classify_error`: lowercase the message, return the
first category one of whose patterns matches, else `UNKNOWN_ERROR`. -/
def classify_error (msg : String) : ErrorCategory :=
  let m := strLower msg
  match errorPatterns.find? (fun cp => cp.2.any (fun frags => regexSearch frags m)) with
  | some cp => cp.1
  | none => .unknown_error

/-- `ErrorClassifier.is_retryable`. -/
def is_retryable (cat : ErrorCategory) : Bool :=
  cat = ErrorCategory.network_error ∨ cat = ErrorCategory.api_rate_limit ∨
  cat = ErrorCategory.server_error ∨ cat = ErrorCategory.unknown_error

/-- `RetryPolicy` dataclass (delays as rationals). -/
structure RetryPolicy where
  max_attempts : Nat := 3
  base_delay : ℚ := 1
  max_delay : ℚ := 60
  exponential_base : ℚ := 2
  jitter_factor : ℚ := 1/10
  retry_on_categories : List ErrorCategory :=
    [.network_error, .api_rate_limit, .server_error]
deriving DecidableEq, Repr

/-- `ErrorClassifier.get_retry_strategy`. -/
def get_retry_strategy (cat : ErrorCategory) : RetryPolicy :=
  match cat with
  | .network_error =>
      { max_attempts := 5, base_delay := 2, max_delay := 30,
        exponential_base := 3/2, jitter_factor := 1/5 }
  | .api_rate_limit =>
      { max_attempts := 3, base_delay := 10, max_delay := 120,
        exponential_base := 2, jitter_factor := 3/10 }
  | .server_error =>
      { max_attempts := 4, base_delay := 5, max_delay := 60,
        exponential_base := 2, jitter_factor := 1/10 }
  | .unknown_error =>
      { max_attempts := 2, base_delay := 3, max_delay := 10,
        exponential_base := 9/5, jitter_factor := 1/10 }
  | _ => { max_attempts := 0 }

/-! ## retry_manager.py : RetryBudget and RetryManager.should_retry -/

/-- `RetryBudget` dataclass; times in whole seconds since an arbitrary
epoch. -/
structure RetryBudget where
  max_retries_per_hour : Nat := 100
  max_retries_per_day : Nat := 500
  current_hour_retries : Nat := 0
  current_day_retries : Nat := 0
  hour_start : Nat := 0
  day_start : Nat := 0
deriving DecidableEq, Repr

namespace RetryBudget

/-- `RetryBudget.can_retry` at clock time `now`: roll the hour and day
horizons over when elapsed, then compare both counters strictly against
their caps.  Returns the decision together with the (possibly reset)
budget, since the Python method mutates in place. -/
def can_retry (now : Nat) (b : RetryBudget) : Bool × RetryBudget :=
  let b1 := if now - b.hour_start ≥ 3600 then
      { b with hour_start := now, current_hour_retries := 0 } else b
  let b2 := if now - b1.day_start ≥ 86400 then
      { b1 with day_start := now, current_day_retries := 0 } else b1
  (b2.current_hour_retries < b2.max_retries_per_hour ∧
     b2.current_day_retries < b2.max_retries_per_day, b2)

/-- `RetryBudget.consume_retry`. -/
def consume_retry (b : RetryBudget) : RetryBudget :=
  { b with current_hour_retries := b.current_hour_retries + 1,
           current_day_retries := b.current_day_retries + 1 }

end RetryBudget

/-- `RetryManager._calculate_delay`; `r` embeds the `random.random()` draw
(a rational in `[0, 1)`). -/
def calculate_delay (policy : RetryPolicy) (attempt : Nat) (r : ℚ) : ℚ :=
  let exponential_delay := policy.base_delay * policy.exponential_base ^ attempt
  let capped_delay := min exponential_delay policy.max_delay
  let jitter := capped_delay * policy.jitter_factor * (r * 2 - 1)
  max (1/10) (capped_delay + jitter)

/-- `RetryManager.should_retry` at clock time `now` with random draw `r`:
classify, gate on retryability, per-class attempt cap, then the global
budget; on success consume one retry and return the computed backoff.
Returns the decision pair together with the updated budget (the retry
history and the statistics counters the Python method also appends to are
write-only bookkeeping that never feeds back into any decision, and are not
modelled). -/
def should_retry (now : Nat) (r : ℚ) (b : RetryBudget) (msg : String)
    (current_attempt : Nat) : (Bool × Option ℚ) × RetryBudget :=
  let cat := classify_error msg
  if ¬ is_retryable cat then ((false, none), b)
  else
    let policy := get_retry_strategy cat
    if current_attempt ≥ policy.max_attempts then ((false, none), b)
    else
      let cr := RetryBudget.can_retry now b
      if ¬ cr.1 then ((false, none), cr.2)
      else
        let delay := calculate_delay policy current_attempt r
        ((true, some delay), cr.2.consume_retry)

/-! ### Claim C7 -/

/-- A fresh default retry budget at epoch 0. -/
def freshBudget : RetryBudget :=
  { max_retries_per_hour := 100, max_retries_per_day := 500,
    current_hour_retries := 0, current_day_retries := 0,
    hour_start := 0, day_start := 0 }

/-- C7 counterexample: the message "mystery failure" classifies as
`UNKNOWN_ERROR`, and with a fresh budget `should_retry` at
`current_attempt = 1` still grants the retry — the `UNKNOWN_ERROR` policy
has `max_attempts = 2`, so the claimed "at most one retry, false for every
attempt at least 1" is violated at attempt 1. -/
theorem claim_C7_counterexample :
    classify_error "mystery failure" = ErrorCategory.unknown_error ∧
    (should_retry 0 0 freshBudget "mystery failure" 1).1.1 = true := by
  constructor
  · rfl
  · rfl

/-- C7 (amended): for every error message classified `UNKNOWN_ERROR`, the
arbiter grants at most two retries — `should_retry` returns `(false, _)`
for every `current_attempt` of at least 2 (the policy cap for the class),
and it can return `(true, _)` only when `current_attempt` is at most 1. -/
theorem claim_C7 (now : Nat) (r : ℚ) (b : RetryBudget) (msg : String)
    (current_attempt : Nat)
    (hcat : classify_error msg = ErrorCategory.unknown_error) :
    (2 ≤ current_attempt →
      (should_retry now r b msg current_attempt).1.1 = false) ∧
    ((should_retry now r b msg current_attempt).1.1 = true →
      current_attempt ≤ 1) := by
  have hmain : 2 ≤ current_attempt →
      (should_retry now r b msg current_attempt).1.1 = false := by
    intro h2
    unfold should_retry
    rw [hcat]
    have hr : is_retryable ErrorCategory.unknown_error = true := rfl
    have hcap : (get_retry_strategy ErrorCategory.unknown_error).max_attempts = 2 := rfl
    simp only [hr, hcap, not_true, if_false, ge_iff_le, h2, if_true, Bool.not_eq_true]
  refine ⟨hmain, ?_⟩
  intro htrue
  by_contra hgt
  have h2 : 2 ≤ current_attempt := by omega
  rw [hmain h2] at htrue
  exact Bool.false_ne_true htrue

/-- C7 witness: at `current_attempt = 2` the unknown-class retry is
refused. -/
theorem claim_C7_witness :
    (2 ≤ 2 → (should_retry 0 0 freshBudget "mystery failure" 2).1.1 = false) ∧
    ((should_retry 0 0 freshBudget "mystery failure" 2).1.1 = true → 2 ≤ 1) :=
  claim_C7 0 0 freshBudget "mystery failure" 2 (by rfl)

/-! ### Claim C8 -/

/-- The step relation of the retry budget: every `should_retry` call either
denies (budget state only changed by horizon rollover) or grants, in which
case `consume_retry` runs on the post-rollover state in the same call,
guarded by `can_retry` having returned true. -/
inductive BudgetStep : RetryBudget → RetryBudget → Prop where
  | deny (now : Nat) (b : RetryBudget)
      (h : (RetryBudget.can_retry now b).1 = false) :
      BudgetStep b (RetryBudget.can_retry now b).2
  | grant (now : Nat) (b : RetryBudget)
      (h : (RetryBudget.can_retry now b).1 = true) :
      BudgetStep b (RetryBudget.consume_retry (RetryBudget.can_retry now b).2)

/-- The dataclass-default initial budget with the given caps, both counters
zero, horizons anchored at `t0`. -/
def initBudget (maxH maxD t0 : Nat) : RetryBudget :=
  { max_retries_per_hour := maxH, max_retries_per_day := maxD,
    current_hour_retries := 0, current_day_retries := 0,
    hour_start := t0, day_start := t0 }

/-- States reachable from an initial budget by `should_retry` calls. -/
inductive BudgetReachable (b0 : RetryBudget) : RetryBudget → Prop where
  | refl : BudgetReachable b0 b0
  | step {b c : RetryBudget} :
      BudgetReachable b0 b → BudgetStep b c → BudgetReachable b0 c

lemma can_retry_snd_fields (now : Nat) (b : RetryBudget) :
    (RetryBudget.can_retry now b).2.max_retries_per_hour = b.max_retries_per_hour ∧
    (RetryBudget.can_retry now b).2.max_retries_per_day = b.max_retries_per_day ∧
    ((RetryBudget.can_retry now b).2.current_hour_retries = b.current_hour_retries ∨
      (RetryBudget.can_retry now b).2.current_hour_retries = 0) ∧
    ((RetryBudget.can_retry now b).2.current_day_retries = b.current_day_retries ∨
      (RetryBudget.can_retry now b).2.current_day_retries = 0) := by
  unfold RetryBudget.can_retry
  by_cases h1 : now - b.hour_start ≥ 3600 <;>
    by_cases h2 : now - b.day_start ≥ 86400 <;>
      simp [h1, h2]

lemma can_retry_true_lt (now : Nat) (b : RetryBudget)
    (h : (RetryBudget.can_retry now b).1 = true) :
    (RetryBudget.can_retry now b).2.current_hour_retries <
        (RetryBudget.can_retry now b).2.max_retries_per_hour ∧
    (RetryBudget.can_retry now b).2.current_day_retries <
        (RetryBudget.can_retry now b).2.max_retries_per_day := by
  unfold RetryBudget.can_retry at h ⊢
  simpa using h

/-- C8: in every state reachable from a fresh budget by `should_retry`
steps — `consume_retry` only ever running right after `can_retry` returned
true in the same call, horizon rollover resetting the corresponding
counter — the counters respect both caps:
`current_hour_retries` is at most `max_retries_per_hour` and
`current_day_retries` is at most `max_retries_per_day`. -/
theorem claim_C8 (maxH maxD t0 : Nat) (b : RetryBudget)
    (h : BudgetReachable (initBudget maxH maxD t0) b) :
    b.current_hour_retries ≤ b.max_retries_per_hour ∧
    b.current_day_retries ≤ b.max_retries_per_day := by
  induction h with
  | refl => exact ⟨Nat.zero_le _, Nat.zero_le _⟩
  | @step bprev bcur _ hstep ih =>
      cases hstep with
      | deny now _ hf =>
          obtain ⟨hmh, hmd, hch, hcd⟩ := can_retry_snd_fields now bprev
          refine ⟨?_, ?_⟩
          · rw [hmh]
            rcases hch with h | h <;> rw [h]
            · exact ih.1
            · exact Nat.zero_le _
          · rw [hmd]
            rcases hcd with h | h <;> rw [h]
            · exact ih.2
            · exact Nat.zero_le _
      | grant now _ hcr =>
          obtain ⟨hlt1, hlt2⟩ := can_retry_true_lt now bprev hcr
          exact ⟨hlt1, hlt2⟩

/-- The budget state after one granted retry at time 10 from a fresh
100-per-hour / 500-per-day budget. -/
def budgetW : RetryBudget :=
  RetryBudget.consume_retry (RetryBudget.can_retry 10 (initBudget 100 500 0)).2

/-- C8 witness: the invariant evaluated on the concrete reachable state
`budgetW`. -/
theorem claim_C8_witness :
    budgetW.current_hour_retries ≤ budgetW.max_retries_per_hour ∧
    budgetW.current_day_retries ≤ budgetW.max_retries_per_day :=
  claim_C8 100 500 0 budgetW
    (BudgetReachable.step BudgetReachable.refl
      (BudgetStep.grant 10 (initBudget 100 500 0) (by decide)))

/-! ## security/multi_key_manager.py : KeyUsageStats and MultiKeyManager -/

/-- `KeyUsageStats` dataclass. -/
structure KeyUsageStats where
  key_id : String
  total_requests : Nat := 0
  successful_requests : Nat := 0
  failed_requests : Nat := 0
  quota_exhausted_count : Nat := 0
  rate_limit_count : Nat := 0
  last_used : Option String := none
  last_success : Option String := none
  last_failure : Option String := none
  current_status : String := "unknown"
  consecutive_failures : Nat := 0
deriving DecidableEq, Repr

namespace KeyUsageStats

/-- `KeyUsageStats.success_rate`. -/
def success_rate (st : KeyUsageStats) : ℚ :=
  if st.total_requests = 0 then 0
  else (st.successful_requests : ℚ) / (st.total_requests : ℚ)

/-- `KeyUsageStats.is_healthy`: more than 5 consecutive failures is
unhealthy; success rate below 50% with strictly more than 10 requests is
unhealthy; everything else — the recorded `current_status` included — is
healthy. -/
def is_healthy (st : KeyUsageStats) : Bool :=
  if st.consecutive_failures > 5 then false
  else if st.total_requests > 10 ∧ st.success_rate < 1/2 then false
  else true

end KeyUsageStats

/-- `MultiKeyManager._get_key_id`: first four plus last four characters. -/
def get_key_id (k : String) : String :=
  if k.length < 8 then k
  else String.mk (k.toList.take 4) ++ "..." ++
       String.mk (k.toList.drop (k.toList.length - 4))

/-- The healthy sublist of `(index, key)` pairs built inside
`get_current_api_key`: keys with no recorded stats count as healthy. -/
def healthy_keys (keys : List String) (stats : String → Option KeyUsageStats) :
    List (Nat × String) :=
  keys.enum.filter (fun p =>
    match stats (get_key_id p.2) with
    | none => true
    | some st => st.is_healthy)

/-- The selection key of the `min` call in `get_current_api_key`:
`(consecutive_failures, -success_rate)`, with dataclass-default stats when
the key id has none recorded. -/
def sel_key (stats : String → Option KeyUsageStats) (p : Nat × String) : Nat × ℚ :=
  let st := (stats (get_key_id p.2)).getD { key_id := get_key_id p.2 }
  (st.consecutive_failures, -st.success_rate)

/-- Lexicographic strict comparison of selection keys (Python tuple `<`). -/
def lexLt (a b : Nat × ℚ) : Bool :=
  decide (a.1 < b.1 ∨ (a.1 = b.1 ∧ a.2 < b.2))

/-- Python `min(xs, key=f)`: scan keeping the first strictly-smaller
element, so the earliest minimizer wins. -/
def selectMin (f : Nat × String → Nat × ℚ) (x : Nat × String) :
    List (Nat × String) → Nat × String
  | [] => x
  | y :: ys => if lexLt (f y) (f x) then selectMin f y ys else selectMin f x ys

/-- `MultiKeyManager.get_current_api_key`: environment fallback when no
keys are configured (`none` models the raised exception when that also
fails), round-robin fallback when no key is healthy, otherwise the
healthiest key by `(consecutive_failures, -success_rate)`.  Returns
`((api_key, key_id), new_current_key_index)`. -/
def get_current_api_key (keys : List String)
    (stats : String → Option KeyUsageStats) (current_key_index : Nat)
    (env_key : Option String) : Option ((String × String) × Nat) :=
  if keys = [] then
    match env_key with
    | some k => some ((k, "ENV_VAR"), current_key_index)
    | none => none
  else
    match healthy_keys keys stats with
    | [] => (keys.get? current_key_index).map
        (fun k => ((k, get_key_id k), current_key_index))
    | h :: t =>
        let best := selectMin (sel_key stats) h t
        some ((best.2, get_key_id best.2), best.1)

lemma selectMin_mem (f : Nat × String → Nat × ℚ) (x : Nat × String)
    (l : List (Nat × String)) : selectMin f x l ∈ x :: l := by
  induction l generalizing x with
  | nil => simp [selectMin]
  | cons y ys ih =>
      unfold selectMin
      by_cases hlt : lexLt (f y) (f x) = true
      · simp only [hlt, if_true]
        have := ih y
        rcases List.mem_cons.mp this with h | h
        · simp [h]
        · simp [List.mem_cons, h]
      · simp only [Bool.not_eq_true] at hlt
        simp only [hlt, Bool.false_eq_true, if_false]
        have := ih x
        rcases List.mem_cons.mp this with h | h
        · simp [h]
        · simp [List.mem_cons, h]

lemma lexLt_irrefl (a : Nat × ℚ) : lexLt a a = false := by
  simp [lexLt]

lemma lexLt_asymm {a b : Nat × ℚ} (h : lexLt a b = true) : lexLt b a = false := by
  simp only [lexLt, decide_eq_true_eq, decide_eq_false_iff_not, not_or, not_and] at h ⊢
  rcases h with h | ⟨h1, h2⟩
  · exact ⟨by omega, fun he => by omega⟩
  · exact ⟨by omega, fun _ => by linarith⟩

lemma lexLt_not_trans {a b c : Nat × ℚ} (hba : lexLt b a = false)
    (hcb : lexLt c b = false) : lexLt c a = false := by
  simp only [lexLt, decide_eq_false_iff_not, not_or, not_and] at hba hcb ⊢
  obtain ⟨hba1, hba2⟩ := hba
  obtain ⟨hcb1, hcb2⟩ := hcb
  refine ⟨by omega, ?_⟩
  intro hceq
  have hab : a.1 ≤ b.1 := Nat.not_lt.mp hba1
  have hbc : b.1 ≤ c.1 := Nat.not_lt.mp hcb1
  have hbeq : b.1 = a.1 := by omega
  have hceqb : c.1 = b.1 := by omega
  have ha2 : ¬ b.2 < a.2 := hba2 hbeq
  have hb2 : ¬ c.2 < b.2 := hcb2 hceqb
  intro hclt
  apply ha2
  calc b.2 ≤ c.2 := le_of_not_lt hb2
    _ < a.2 := hclt

lemma selectMin_not_lt (f : Nat × String → Nat × ℚ) (x : Nat × String)
    (l : List (Nat × String)) :
    ∀ y ∈ x :: l, lexLt (f y) (f (selectMin f x l)) = false := by
  induction l generalizing x with
  | nil =>
      intro y hy
      simp only [List.mem_singleton] at hy
      subst hy
      simp only [selectMin]
      exact lexLt_irrefl (f y)
  | cons z zs ih =>
      intro y hy
      unfold selectMin
      by_cases hlt : lexLt (f z) (f x) = true
      · simp only [hlt, if_true]
        rcases List.mem_cons.mp hy with hyx | hyrest
        · subst hyx
          have hxz : lexLt (f y) (f z) = false := lexLt_asymm hlt
          have hmin : lexLt (f z) (f (selectMin f z zs)) = false :=
            ih z z (List.mem_cons_self z zs)
          exact lexLt_not_trans hmin hxz
        · exact ih z y hyrest
      · simp only [Bool.not_eq_true] at hlt
        simp only [hlt, Bool.false_eq_true, if_false]
        rcases List.mem_cons.mp hy with hyx | hyrest
        · subst hyx
          exact ih y y (List.mem_cons_self y zs)
        · rcases List.mem_cons.mp hyrest with hyz | hyzs
          · subst hyz
            have hmin : lexLt (f x) (f (selectMin f x zs)) = false :=
              ih x x (List.mem_cons_self x zs)
            exact lexLt_not_trans hmin hlt
          · exact ih x y (List.mem_cons_of_mem x hyzs)

/-! ### Claim C9 -/

/-- Eligibility worded exactly as the claim states it (a spec-side
definition, for comparison against the code's `is_healthy`): not marked
Invalid, at most 5 consecutive failures, and success rate at least 1/2 once
at least 10 requests have been seen. -/
def spec_eligible (st : KeyUsageStats) : Prop :=
  st.current_status ≠ "invalid" ∧ st.consecutive_failures ≤ 5 ∧
  (10 ≤ st.total_requests → (1 : ℚ)/2 ≤ st.success_rate)

/-- The first credential of the C9 counterexample: marked Invalid, one
consecutive failure, success rate 9/10 over 10 requests. -/
def statsInvalidKey : KeyUsageStats :=
  { key_id := "AAAA...1111", total_requests := 10, successful_requests := 9,
    failed_requests := 1, current_status := "invalid",
    consecutive_failures := 1 }

/-- The second credential of the C9 counterexample: Active, two consecutive
failures, success rate 1/2 over 10 requests. -/
def statsActiveKey : KeyUsageStats :=
  { key_id := "BBBB...2222", total_requests := 10, successful_requests := 5,
    failed_requests := 5, current_status := "active",
    consecutive_failures := 2 }

/-- The recorded usage map of the C9 counterexample. -/
def statsC9 : String → Option KeyUsageStats := fun kid =>
  if kid = "AAAA...1111" then some statsInvalidKey
  else if kid = "BBBB...2222" then some statsActiveKey
  else none

/-- C9 counterexample: `is_healthy` never looks at `current_status`, so
with the Invalid key at `(1, -9/10)` and the Active key at `(2, -1/2)` the
selector returns the Invalid credential even though an eligible (per the
claim) credential exists. -/
theorem claim_C9_counterexample :
    get_current_api_key ["AAAA1111", "BBBB2222"] statsC9 0 none
      = some (("AAAA1111", "AAAA...1111"), 0) ∧
    statsC9 "AAAA...1111" = some statsInvalidKey ∧
    statsInvalidKey.current_status = "invalid" ∧
    spec_eligible statsActiveKey := by
  refine ⟨by rfl, by rfl, by rfl, ?_⟩
  refine ⟨by decide, by decide, ?_⟩
  intro _
  norm_num [statsActiveKey, KeyUsageStats.success_rate]

/-- C9 (amended): whenever at least one credential is healthy in the
code's sense — at most 5 consecutive failures, and success rate at least
1/2 once strictly more than 10 requests have been seen; the recorded
status, Invalid included, is not consulted — `get_current_api_key` returns
a healthy credential minimizing `(consecutive_failures, -success_rate)`
over the healthy set (earliest index on ties).  An Invalid credential can
therefore be returned while an eligible one exists. -/
theorem claim_C9 (keys : List String) (stats : String → Option KeyUsageStats)
    (current_key_index : Nat) (env_key : Option String)
    (h : healthy_keys keys stats ≠ []) :
    ∃ p : Nat × String,
      get_current_api_key keys stats current_key_index env_key
        = some ((p.2, get_key_id p.2), p.1) ∧
      p ∈ healthy_keys keys stats ∧
      ∀ q ∈ healthy_keys keys stats,
        lexLt (sel_key stats q) (sel_key stats p) = false := by
  have hkeys : keys ≠ [] := by
    intro hk
    apply h
    simp [healthy_keys, hk]
  unfold get_current_api_key
  rcases hh : healthy_keys keys stats with _ | ⟨x, l⟩
  · exact absurd hh h
  · refine ⟨selectMin (sel_key stats) x l, ?_, ?_, ?_⟩
    · simp [hkeys]
    · exact selectMin_mem (sel_key stats) x l
    · intro q hq
      exact selectMin_not_lt (sel_key stats) x l q hq

/-- C9 witness: the amended selection evaluated on the two-credential
counterexample state (the minimizer is the Invalid key at index 0). -/
theorem claim_C9_witness :
    ∃ p : Nat × String,
      get_current_api_key ["AAAA1111", "BBBB2222"] statsC9 0 none
        = some ((p.2, get_key_id p.2), p.1) ∧
      p ∈ healthy_keys ["AAAA1111", "BBBB2222"] statsC9 ∧
      ∀ q ∈ healthy_keys ["AAAA1111", "BBBB2222"] statsC9,
        lexLt (sel_key statsC9 q) (sel_key statsC9 p) = false :=
  claim_C9 ["AAAA1111", "BBBB2222"] statsC9 0 none (by decide)

/-! ## services/simple_gemini_service.py : MIME resolution -/

/-- The `mime_types` dict of `SimpleGeminiService._get_mime_type`. -/
def mime_types : List (String × String) :=
  [(".mp4", "video/mp4"), (".mov", "video/quicktime"),
   (".avi", "video/x-msvideo"), (".mkv", "video/x-matroska"),
   (".webm", "video/webm"), (".m4v", "video/x-m4v")]

/-- `SimpleGeminiService._get_mime_type`: lowercase lookup with
`video/mp4` as the dict-get default. -/
def get_mime_type (file_extension : String) : String :=
  ((mime_types.lookup (strLower file_extension)).getD "video/mp4")

/-! ### Claim C10 -/

/-- C10: `_get_mime_type` is total — the six supported extensions map to
their video MIME types case-insensitively, and every extension string whose
lowercase form is not one of the six keys falls back to `video/mp4`, so an
unsupported extension is uploaded as MP4 rather than failing. -/
theorem claim_C10 (ext : String) :
    (strLower ext ∉ mime_types.map Prod.fst → get_mime_type ext = "video/mp4") ∧
    get_mime_type ".mp4" = "video/mp4" ∧
    get_mime_type ".MP4" = "video/mp4" ∧
    get_mime_type ".mov" = "video/quicktime" ∧
    get_mime_type ".MOV" = "video/quicktime" ∧
    get_mime_type ".avi" = "video/x-msvideo" ∧
    get_mime_type ".Avi" = "video/x-msvideo" ∧
    get_mime_type ".mkv" = "video/x-matroska" ∧
    get_mime_type ".MKV" = "video/x-matroska" ∧
    get_mime_type ".webm" = "video/webm" ∧
    get_mime_type ".WebM" = "video/webm" ∧
    get_mime_type ".m4v" = "video/x-m4v" ∧
    get_mime_type ".M4V" = "video/x-m4v" := by
  refine ⟨?_, by rfl, by rfl, by rfl, by rfl, by rfl, by rfl, by rfl, by rfl,
    by rfl, by rfl, by rfl, by rfl⟩
  intro h
  simp only [mime_types, List.map, List.mem_cons, List.not_mem_nil, or_false,
    not_or] at h
  obtain ⟨h1, h2, h3, h4, h5, h6⟩ := h
  unfold get_mime_type
  have e1 : (strLower ext == ".mp4") = false := beq_eq_false_iff_ne.mpr h1
  have e2 : (strLower ext == ".mov") = false := beq_eq_false_iff_ne.mpr h2
  have e3 : (strLower ext == ".avi") = false := beq_eq_false_iff_ne.mpr h3
  have e4 : (strLower ext == ".mkv") = false := beq_eq_false_iff_ne.mpr h4
  have e5 : (strLower ext == ".webm") = false := beq_eq_false_iff_ne.mpr h5
  have e6 : (strLower ext == ".m4v") = false := beq_eq_false_iff_ne.mpr h6
  simp [mime_types, List.lookup, e1, e2, e3, e4, e5, e6]

/-- C10 witness: an unsupported extension such as `.flv` resolves to
`video/mp4`. -/
theorem claim_C10_witness : get_mime_type ".flv" = "video/mp4" :=
  (claim_C10 ".flv").1 (by decide)

end GsVideoReport
